import Mathlib

/-!
Verification of the client-side scripts of the i-shubham.github.io site.

The development shallowly embeds three scripts:
* the Navigation Builder (`assets/js/navigation.js`, class `Navigation`):
  section detection, base-path computation, nav-item construction, HTML
  rendering and idempotent style injection;
* the aggressive Client Guard (`assets/js/resume-protection.js`):
  wipe / restore of the document markup driven by a devtools heuristic;
* the lighter Client Guard and the Resume Exporter
  (`assets/resume/resume.js`): the warning wipe and the PDF style
  override / restore pipeline.

JavaScript strings are `String`, nullable strings are `Option String`,
DOM state is explicit records, and the timer-driven polling loops are
step functions applied to explicit states (the fixed delays — the 500 ms
settle delay, the 100 ms re-arm delay — are folded into the transition
that fires when they elapse, since nothing else runs in between on the
single-threaded event loop).
-/

/-! ## String utilities (JS `includes` / `endsWith`) -/

/-- Check that `pat` occurs at the head of `t` (helper for the substring
test). -/
def listStartsWith : List Char → List Char → Bool
  | [], _ => true
  | _ :: _, [] => false
  | p :: ps, t :: ts => (p == t) && listStartsWith ps ts

/-- Check that `pat` occurs somewhere inside `t` (helper for the substring
test). -/
def listHasSub (pat : List Char) : List Char → Bool
  | [] => listStartsWith pat []
  | t :: ts => listStartsWith pat (t :: ts) || listHasSub pat ts

/-- JS `s.includes(pat)`: substring containment test on strings. -/
def strIncludes (s pat : String) : Bool :=
  listHasSub pat.data s.data

/-- JS `s.endsWith(pat)`: suffix test on strings. -/
def strEndsWith (s pat : String) : Bool :=
  listStartsWith pat.data.reverse s.data.reverse

/-! ## Navigation Builder: section detection and base path

Embedding of `Navigation.getCurrentPage` and `Navigation.getBasePath`.
`window.location.pathname` becomes the explicit argument `path`. -/

/-- Embeds `Navigation.getCurrentPage`: the ordered substring-rule chain
mapping the URL path to a section id. -/
def getCurrentPage (path : String) : String :=
  if strIncludes path "/travel/pages/" then "travel"
  else if strIncludes path "/travel/" then "travel"
  else if strIncludes path "/tech/" then "tech"
  else if strIncludes path "/gpt/" then "gpt"
  else if path == "/" || strEndsWith path "index.html" then "portfolio"
  else "portfolio"

/-- Embeds `Navigation.getBasePath`: relative ascent prefix per section
depth. -/
def getBasePath (path : String) : String :=
  if strIncludes path "/travel/pages/" then "../../../"
  else if strIncludes path "/travel/" then "../../"
  else if strIncludes path "/tech/" then "../../"
  else if strIncludes path "/gpt/" then "../"
  else "./"

/-- Embeds `Navigation.getProfileImagePath`. -/
def getProfileImagePath (path : String) : String :=
  if strIncludes path "/travel/pages/" then "../../../assets/img/profile-img.jpg"
  else if strIncludes path "/travel/" then "../../assets/img/profile-img.jpg"
  else if strIncludes path "/tech/" then "../../assets/img/profile-img.jpg"
  else if strIncludes path "/gpt/" then "../assets/img/profile-img.jpg"
  else "assets/img/profile-img.jpg"

/-! ## Spec-side section mapping

Second definition, written from the specification's words ("an ordered
set of prefix rules (most specific first): a path containing a
travel-pages segment or travel segment maps to travel; tech segment maps
to tech; gpt segment maps to gpt; root or index maps to portfolio;
default portfolio"), to be compared with `getCurrentPage`. -/

/-- The ordered rule list of the specification: guard and section id,
most specific first. -/
def navRules : List ((String → Bool) × String) :=
  [ (fun p => strIncludes p "/travel/pages/" || strIncludes p "/travel/", "travel"),
    (fun p => strIncludes p "/tech/", "tech"),
    (fun p => strIncludes p "/gpt/", "gpt"),
    (fun p => p == "/" || strEndsWith p "index.html", "portfolio"),
    (fun _ => true, "portfolio") ]

/-- First rule of the list whose guard accepts the path. -/
def firstMatchSection : List ((String → Bool) × String) → String → Option String
  | [], _ => none
  | r :: rs, p => if r.1 p then some r.2 else firstMatchSection rs p

/-- Spec-side section mapping: the section of the first matching rule
(with the documented default). -/
def getCurrentPageSpec (path : String) : String :=
  (firstMatchSection navRules path).getD "portfolio"

/-- Guard of the `i`-th rule of `navRules` evaluated on `path` (false past
the end of the list). -/
def ruleGuardAt (path : String) (i : Nat) : Bool :=
  match navRules.get? i with
  | some r => r.1 path
  | none => false

/-- Rule `i` maps `path` under the priority ordering: its guard accepts
the path and every earlier guard rejects it. -/
def navRuleSelects (path : String) (i : Nat) : Prop :=
  ruleGuardAt path i = true ∧ ∀ j, j < i → ruleGuardAt path j = false

theorem ruleGuardAt_zero (p : String) :
    ruleGuardAt p 0 = (strIncludes p "/travel/pages/" || strIncludes p "/travel/") := rfl

theorem ruleGuardAt_one (p : String) :
    ruleGuardAt p 1 = strIncludes p "/tech/" := rfl

theorem ruleGuardAt_two (p : String) :
    ruleGuardAt p 2 = strIncludes p "/gpt/" := rfl

theorem ruleGuardAt_three (p : String) :
    ruleGuardAt p 3 = (p == "/" || strEndsWith p "index.html") := rfl

theorem ruleGuardAt_four (p : String) : ruleGuardAt p 4 = true := rfl

/-- Under the priority ordering at most one rule maps a given path. -/
theorem navRuleSelects_unique {p : String} {i j : Nat}
    (hi : navRuleSelects p i) (hj : navRuleSelects p j) : i = j := by
  rcases Nat.lt_trichotomy i j with h | h | h
  · exact absurd hi.1 (by simp [hj.2 i h])
  · exact h
  · exact absurd hj.1 (by simp [hi.2 j h])

/-! ## Navigation Builder: nav items and rendering -/

/-- A navigation entry as built by `Navigation.getNavItems`; the
`external` and `special` properties are absent (falsy) on most items in
the source, embedded as default-`false` fields. -/
structure NavItem where
  id : String
  text : String
  url : String
  icon : String
  external : Bool := false
  special : Bool := false
deriving DecidableEq

/-- Embeds `Navigation.getNavItems`. The source initialises `travelUrl`
to the base-path form and reassigns it for travel-pages paths; the
reassignment is embedded as an if-else. -/
def getNavItems (path : String) : List NavItem :=
  let basePath := getBasePath path
  let travelUrl :=
    if strIncludes path "/travel/pages/" then "../index.html"
    else basePath ++ "travel/index.html"
  [ { id := "portfolio", text := "Portfolio", url := basePath ++ "index.html", icon := "fas fa-user" },
    { id := "travel", text := "Travel-Blog", url := travelUrl, icon := "fas fa-plane" },
    { id := "youtube", text := "YouTube", url := "https://www.youtube.com/@i-shubham-mallick", icon := "fab fa-youtube", external := true },
    { id := "tech", text := "Tech-Blog", url := basePath ++ "tech/tech-index.html", icon := "fas fa-code" },
    { id := "gpt", text := "Open GPT", url := basePath ++ "gpt/gpt-index.html", icon := "fas fa-robot", special := true } ]

/-- A social-bar entry as returned by `Navigation.getSocialLinks`. -/
structure SocialLink where
  url : String
  icon : String
  title : String
deriving DecidableEq

/-- Embeds `Navigation.getSocialLinks`. -/
def getSocialLinks : List SocialLink :=
  [ { url := "https://www.linkedin.com/in/i-shubham/", icon := "fab fa-linkedin", title := "LinkedIn" },
    { url := "https://www.youtube.com/@i-shubham-mallick", icon := "fab fa-youtube", title := "YouTube" },
    { url := "https://www.instagram.com/i.shubham.01/", icon := "fab fa-instagram", title := "Instagram" },
    { url := "#", icon := "fab fa-twitter", title := "Twitter" } ]

/-- One iteration of the nav-item loop of `Navigation.createNavHTML`:
the template-literal text appended for `item`, whitespace included. -/
def navItemHTML (currentPage : String) (item : NavItem) : String :=
  let isActive := if item.id == currentPage then "active" else ""
  let target := if item.external then " target=\"_blank\"" else ""
  let specialCls := if item.special then "gpt-nav-item" else ""
  if item.special then
    "\n                    <li class=\"nav-item\">\n                        <a class=\"nav-link " ++ isActive ++ " " ++ specialCls ++ "\" href=\"" ++ item.url ++ "\"" ++ target ++ ">\n                            <span class=\"gpt-icon\">🤖</span>\n                            <span class=\"gpt-text\">" ++ item.text ++ "</span>\n                        </a>\n                    </li>\n                "
  else
    "\n                    <li class=\"nav-item\">\n                        <a class=\"nav-link " ++ isActive ++ "\" href=\"" ++ item.url ++ "\"" ++ target ++ ">\n                            <i class=\"" ++ item.icon ++ "\"></i> " ++ item.text ++ "\n                        </a>\n                    </li>\n                "

/-- One iteration of the social-link loop of `Navigation.createNavHTML`. -/
def socialLinkHTML (link : SocialLink) : String :=
  let target := if link.url != "#" then " target=\"_blank\"" else ""
  "\n                <a href=\"" ++ link.url ++ "\"" ++ target ++ " class=\"btn btn-outline-primary me-2\" title=\"" ++ link.title ++ "\">\n                    <i class=\"" ++ link.icon ++ "\"></i>\n                </a>\n            "

/-- Embeds `Navigation.createNavHTML`: the full navbar markup returned by
the method, with the item and social loops folded left (JS `forEach`
with `+=`). -/
def createNavHTML (path : String) : String :=
  let currentPage := getCurrentPage path
  let navItemsHTML := (getNavItems path).foldl (fun acc it => acc ++ navItemHTML currentPage it) ""
  let socialHTML := getSocialLinks.foldl (fun acc l => acc ++ socialLinkHTML l) ""
  "\n            <nav class=\"navbar navbar-expand-lg navbar-light bg-light\">\n                <div class=\"container-fluid\" id=\"mainDivNavBar\">\n                    <img id=\"navbarImg\" src=\"" ++ getProfileImagePath path ++ "\" alt=\"\" class=\"img-fluid rounded-circle\">\n                    <!-- Brand/Logo -->\n                    <a class=\"navbar-brand\" href=\"#\">\n                        &nbsp;&nbsp;&nbsp;&nbsp;Shubham Mallick\n                    </a>\n\n                    <!-- Toggle Button for Mobile -->\n                    <button id=\"navBarExpandBtn\" class=\"navbar-toggler\" type=\"button\" data-bs-toggle=\"collapse\" data-bs-target=\"#navbarNav\" aria-controls=\"navbarNav\" aria-expanded=\"false\" aria-label=\"Toggle navigation\">\n                        <span class=\"navbar-toggler-icon\"></span>\n                    </button>\n\n                    <!-- Navbar Content -->\n                    <div class=\"collapse navbar-collapse\" id=\"navbarNav\">\n                        <!-- Centered Menu -->\n                        <ul class=\"navbar-nav\">\n                            " ++ navItemsHTML ++ "\n                        </ul>\n                        <!-- Social Media Icons -->\n                        <div class=\"d-flex\">\n                            " ++ socialHTML ++ "\n                        </div>\n                    </div>\n                </div>\n            </nav>\n        "

/-! ## Navigation Builder: idempotent style injection

Embedding of `Navigation.addStyles`. The document head is the list of
its elements, each carrying its id attribute; the stylesheet text itself
(the CSS block assigned to `styleElement.innerHTML`) plays no role in
the injection guard, which only queries for the marker id, so element
content is not modelled. `document.querySelector('#nav-styles')` is the
search for an element whose id is the marker, and `appendChild` is an
append at the end of the head list. -/

/-- An element of the document head, identified by its id attribute. -/
structure HeadElem where
  elemId : String
deriving DecidableEq

/-- Embeds `Navigation.addStyles`: append the marker style element unless
an element with the marker id already exists. -/
def addStyles (head : List HeadElem) : List HeadElem :=
  if head.any (fun e => e.elemId == "nav-styles") then head
  else head ++ [{ elemId := "nav-styles" }]

/-- Number of elements of the head carrying the marker id `nav-styles`
(the size of the `querySelectorAll` result the spec's test would run). -/
def navStylesCount (head : List HeadElem) : Nat :=
  (head.filter (fun e => e.elemId == "nav-styles")).length

/-! ## Aggressive Client Guard (`assets/js/resume-protection.js`)

`document.documentElement.innerHTML` is the `doc` field, the module
globals `originalContent` (a nullable string, `null` initially) and
`isProtected` are explicit fields, and the interceptors re-armed by the
`setTimeout` in `restoreOriginalContent` (event handlers, devtools
detector, view-source guard, overlay with mutation observer) are
abstracted into the `listenersArmed` flag. -/

/-- Markup shown after a wipe: a fresh body holding the protection
message panel (condensed serialization of the nodes `removeHtmlElements`
builds and appends after clearing the document). -/
def protectionScreenHTML : String :=
  "<body><div>🛡️<h2>Access Restricted</h2><p>Developer tools detected. This content is protected for security reasons.</p><div>HTML content has been removed</div></div></body>"

/-- State owned by the aggressive Client Guard. -/
structure GuardState where
  doc : String
  originalContent : Option String
  isProtected : Bool
  listenersArmed : Bool
deriving DecidableEq

/-- JS truthiness of the nullable `originalContent` string: `null` and
the empty string are falsy. -/
def jsTruthy : Option String → Bool
  | none => false
  | some c => !(c == "")

/-- Embeds `removeHtmlElements`: an early return when already protected;
otherwise snapshot the markup, set the flag, and replace the document
with the protection screen. -/
def removeHtmlElements (s : GuardState) : GuardState :=
  if s.isProtected then s
  else
    { doc := protectionScreenHTML,
      originalContent := some s.doc,
      isProtected := true,
      listenersArmed := s.listenersArmed }

/-- Embeds `restoreOriginalContent`: an early return when not protected
or when `originalContent` is falsy (`if (!isProtected || !originalContent)
return`); otherwise put the snapshot back, drop the flag, and re-arm the
interceptors (the 100 ms `setTimeout` re-initialisation). The snapshot
variable itself is not reassigned by the source. -/
def restoreOriginalContent (s : GuardState) : GuardState :=
  if !s.isProtected || !jsTruthy s.originalContent then s
  else
    { doc := s.originalContent.getD "",
      originalContent := s.originalContent,
      isProtected := false,
      listenersArmed := true }

/-- Embeds the dimension heuristic of `checkDevTools` in
`resume-protection.js`: base threshold 160 on both window-dimension
deltas, or the console-object check (`console.firebug ||
console.exception`, passed as `cc`). -/
def devtoolsHeuristic (ow iw oh ih : Int) (cc : Bool) : Bool :=
  decide (ow - iw > 160) || decide (oh - ih > 160) || cc

/-- Detector state: the closure flag `devtools.open` next to the guard
state (the cosmetic `devtools.orientation` string is not modelled). -/
structure DetState where
  devOpen : Bool
  guard : GuardState
deriving DecidableEq

/-- Embeds one firing of the polling closure `checkDevTools`: on a
positive heuristic an un-open detector wipes; on a negative heuristic an
open detector restores (the source schedules `restoreOriginalContent`
500 ms later; nothing else intervenes, so the settle delay is folded
into this transition). -/
def pollStep (ow iw oh ih : Int) (cc : Bool) (s : DetState) : DetState :=
  if devtoolsHeuristic ow iw oh ih cc then
    if s.devOpen then s
    else { devOpen := true, guard := removeHtmlElements s.guard }
  else
    if s.devOpen then { devOpen := false, guard := restoreOriginalContent s.guard }
    else s

/-- States the aggressive guard can reach: any initial document with the
globals at their declared values (`originalContent = null`,
`isProtected = false`), closed under the polling transition and under
the other wipe triggers (console-method override, keyboard interceptors,
mutation observer, delayed print wipe), all of which call
`removeHtmlElements` without touching the detector flag. -/
inductive Reach : DetState → Prop where
  | init (d : String) (armed : Bool) :
      Reach { devOpen := false,
              guard := { doc := d, originalContent := none,
                         isProtected := false, listenersArmed := armed } }
  | poll (ow iw oh ih : Int) (cc : Bool) {s : DetState} :
      Reach s → Reach (pollStep ow iw oh ih cc s)
  | trigger {s : DetState} :
      Reach s → Reach { s with guard := removeHtmlElements s.guard }

/-! ## Lighter Client Guard (`assets/resume/resume.js`)

The lighter variant owns no snapshot: its only state is the body markup
it may overwrite. -/

/-- The warning markup `showWarning` assigns to `document.body.innerHTML`. -/
def warningHTML : String :=
  "<div style=\"text-align: center; padding: 50px; font-size: 24px; color: red; background: white; height: 100vh; display: flex; align-items: center; justify-content: center;\">Developer tools detected. Access denied.</div>"

/-- State touched by the lighter guard: the body markup. -/
structure LightState where
  body : String
deriving DecidableEq

/-- Embeds `showWarning`: replace the body with the warning panel. -/
def showWarning (_s : LightState) : LightState :=
  { body := warningHTML }

/-- Threshold constants of the lighter `checkDevTools`. -/
def lightWidthThreshold : Int := 200

/-- Threshold constants of the lighter `checkDevTools`. -/
def lightHeightThreshold : Int := 200

/-- Chrome allowance constants of the lighter `checkDevTools`. -/
def normalChromeHeight : Int := 100

/-- Chrome allowance constants of the lighter `checkDevTools`. -/
def normalChromeWidth : Int := 20

/-- Embeds the suspicion test of the lighter `checkDevTools`: window
dimension deltas against the chrome-adjusted thresholds. -/
def lightSuspicious (ow iw oh ih : Int) : Bool :=
  let widthDiff := ow - iw
  let heightDiff := oh - ih
  decide (widthDiff > normalChromeWidth + lightWidthThreshold) ||
    decide (heightDiff > normalChromeHeight + lightHeightThreshold)

/-- Embeds one firing of the lighter `checkDevTools` poll: wipe on a
positive test, otherwise leave the state alone (the source has no else
branch and no restore path). -/
def lightCheckDevTools (ow iw oh ih : Int) (s : LightState) : LightState :=
  if lightSuspicious ow iw oh ih then showWarning s else s

/-- A run of the lighter polling loop over a list of observed window
dimension tuples. -/
def lightRun (dims : List (Int × Int × Int × Int)) (s : LightState) : LightState :=
  dims.foldl (fun st d => lightCheckDevTools d.1 d.2.1 d.2.2.1 d.2.2.2 st) s

/-! ## Resume Exporter (`assets/resume/resume.js`, `downloadResume`)

Per-element model of the style override / restore pipeline. Only the
inline style properties the function reads or writes are modelled. -/

/-- Inline style properties of a gradient-text element touched by
`downloadResume`. -/
structure ElemStyle where
  background : String
  webkitBackgroundClip : String
  webkitTextFillColor : String
  backgroundClip : String
  color : String
  fontWeight : String
  fontSize : String
  lineHeight : String
  textShadow : String
deriving DecidableEq

/-- A gradient-text element selected by the `.company, .job-title,
.degree, .grade, .award-title` query: its class list and inline style. -/
structure GradElem where
  classes : List String
  style : ElemStyle
deriving DecidableEq

/-- JS `el.classList.contains(c)`. -/
def hasCls (e : GradElem) (c : String) : Bool :=
  e.classes.contains c

/-- The per-element snapshot `originalStyles[index]` records before the
override: exactly four properties. -/
structure StyleSnapshot where
  background : String
  webkitBackgroundClip : String
  webkitTextFillColor : String
  backgroundClip : String
deriving DecidableEq

/-- Embeds the snapshot taken at the top of the gradient-element loop. -/
def snapshotOf (e : GradElem) : StyleSnapshot :=
  { background := e.style.background,
    webkitBackgroundClip := e.style.webkitBackgroundClip,
    webkitTextFillColor := e.style.webkitTextFillColor,
    backgroundClip := e.style.backgroundClip }

/-- Embeds the override body of the gradient-element loop: flatten the
gradient text, then set the class-keyed solid colours. -/
def exportOverride (e : GradElem) : GradElem :=
  let st := e.style
  let st :=
    { st with background := "none", webkitBackgroundClip := "unset",
              webkitTextFillColor := "unset", backgroundClip := "unset",
              textShadow := "none" }
  let st :=
    if hasCls e "company" then
      { st with color := "#3498db", fontWeight := "600", fontSize := "1.2em" }
    else if hasCls e "job-title" then
      { st with color := "#704da6", fontWeight := "700", fontSize := "1em" }
    else if hasCls e "degree" then
      { st with color := "#2c3e50", fontSize := "0.8em", lineHeight := "1.2" }
    else if hasCls e "grade" then
      { st with color := "#27ae60", fontWeight := "600" }
    else if hasCls e "award-title" then
      { st with color := "#e74c3c", fontWeight := "700" }
    else st
  { e with style := st }

/-- Embeds the restoration body of the success branch (`.then`): put the
four snapshot properties back and clear colour, weight and shadow (the
`if (originalStyles[index])` guard always holds here, the snapshot being
filled for every index of the same collection). -/
def successRestoreElem (snap : StyleSnapshot) (e : GradElem) : GradElem :=
  { e with style :=
    { e.style with
        background := snap.background,
        webkitBackgroundClip := snap.webkitBackgroundClip,
        webkitTextFillColor := snap.webkitTextFillColor,
        backgroundClip := snap.backgroundClip,
        color := "", fontWeight := "", textShadow := "" } }

/-- Embeds the restoration body of the failure branch (`.catch`),
written out separately in the source. -/
def errorRestoreElem (snap : StyleSnapshot) (e : GradElem) : GradElem :=
  { e with style :=
    { e.style with
        background := snap.background,
        webkitBackgroundClip := snap.webkitBackgroundClip,
        webkitTextFillColor := snap.webkitTextFillColor,
        backgroundClip := snap.backgroundClip,
        color := "", fontWeight := "", textShadow := "" } }

/-- Inline style properties of the `.container` element touched by
`downloadResume` (the fields of `originalContainerStyles`). -/
structure ContainerStyle where
  borderRadius : String
  border : String
  overflow : String
deriving DecidableEq

/-- Embeds the container override: drop the border radius, border and
overflow clipping for the PDF. -/
def containerOverride (_c : ContainerStyle) : ContainerStyle :=
  { borderRadius := "0", border := "none", overflow := "visible" }

/-- Embeds the container restoration, identical in the success and
failure branches: all three recorded properties put back. -/
def containerRestore (snap _c : ContainerStyle) : ContainerStyle :=
  { borderRadius := snap.borderRadius,
    border := snap.border,
    overflow := snap.overflow }

/-- The wipe / restore invariant carried by a guard state: a protected
state owns a non-null snapshot. -/
def guardInv (g : GuardState) : Prop :=
  g.isProtected = true → g.originalContent ≠ none

/-- The all-empty inline style record: the typical state of the
gradient-text elements, whose looks come from CSS classes rather than
inline styles. -/
def emptyStyle : ElemStyle :=
  { background := "", webkitBackgroundClip := "", webkitTextFillColor := "",
    backgroundClip := "", color := "", fontWeight := "", fontSize := "",
    lineHeight := "", textShadow := "" }

/-- A `.company` element with no inline styles before the export. -/
def companyElem : GradElem :=
  { classes := ["company"], style := emptyStyle }

/-! ## Theorems -/

/-- Claim C1: for every URL pathname, `getCurrentPage` returns exactly
one section id and it agrees with the spec's prefix-priority rule list
(`travel-pages` or `travel` → travel, then `tech`, then `gpt`, then root
or `index.html`, then the default, all yielding portfolio); under the
priority ordering exactly one rule maps each path, so no path is mapped
by two rules to different section ids. -/
theorem getCurrentPage_priority_mapping (path : String) :
    getCurrentPage path = getCurrentPageSpec path
    ∧ ∃! i, navRuleSelects path i := by
  constructor
  · unfold getCurrentPage getCurrentPageSpec navRules
    cases h1 : strIncludes path "/travel/pages/" <;>
      cases h2 : strIncludes path "/travel/" <;>
        cases h3 : strIncludes path "/tech/" <;>
          cases h4 : strIncludes path "/gpt/" <;>
            simp [firstMatchSection, h1, h2, h3, h4]
  · have hex : ∃ i, navRuleSelects path i := by
      cases h0 : ruleGuardAt path 0 with
      | true => exact ⟨0, h0, fun j hj => absurd hj (Nat.not_lt_zero j)⟩
      | false =>
        cases h1 : ruleGuardAt path 1 with
        | true =>
          refine ⟨1, h1, fun j hj => ?_⟩
          interval_cases j
          · exact h0
        | false =>
          cases h2 : ruleGuardAt path 2 with
          | true =>
            refine ⟨2, h2, fun j hj => ?_⟩
            interval_cases j
            · exact h0
            · exact h1
          | false =>
            cases h3 : ruleGuardAt path 3 with
            | true =>
              refine ⟨3, h3, fun j hj => ?_⟩
              interval_cases j
              · exact h0
              · exact h1
              · exact h2
            | false =>
              refine ⟨4, ruleGuardAt_four path, fun j hj => ?_⟩
              interval_cases j
              · exact h0
              · exact h1
              · exact h2
              · exact h3
    obtain ⟨i, hi⟩ := hex
    exact ⟨i, hi, fun y hy => navRuleSelects_unique hy hi⟩

/-- Claim C6: whenever the pathname contains `/travel/pages/`, the
travel NavItem built by `getNavItems` carries the relative-ascent URL
`../index.html`, which differs from the generic base-path-prefixed form
`getBasePath path ++ "travel/index.html"`. -/
theorem travel_link_from_travel_pages (path : String)
    (h : strIncludes path "/travel/pages/" = true) :
    ((getNavItems path).find? (fun it => it.id == "travel")).map NavItem.url
      = some "../index.html"
    ∧ "../index.html" ≠ getBasePath path ++ "travel/index.html" := by
  have hb : getBasePath path = "../../../" := by simp [getBasePath, h]
  constructor
  · simp [getNavItems, h, List.find?]
  · rw [hb]
    decide

/-- Claim C6 witness: the travel link computed on the concrete
travel-pages path. -/
theorem travel_link_from_travel_pages_witness :
    ((getNavItems "/travel/pages/goa.html").find? (fun it => it.id == "travel")).map NavItem.url
      = some "../index.html"
    ∧ "../index.html" ≠ getBasePath "/travel/pages/goa.html" ++ "travel/index.html" :=
  travel_link_from_travel_pages "/travel/pages/goa.html" (by decide)

/-- Heads with no marker element fail the injection guard. -/
theorem navStyles_absent_of_count_zero (head : List HeadElem)
    (h : navStylesCount head = 0) :
    head.any (fun e => e.elemId == "nav-styles") = false := by
  have hf : head.filter (fun e => e.elemId == "nav-styles") = [] :=
    List.length_eq_zero.mp h
  rw [List.any_eq_false]
  intro x hx hpx
  have : x ∈ head.filter (fun e => e.elemId == "nav-styles") :=
    List.mem_filter.mpr ⟨hx, hpx⟩
  simp [hf] at this

/-- Heads with a marker element pass the injection guard, so `addStyles`
leaves them unchanged. -/
theorem addStyles_of_count_pos (head : List HeadElem)
    (h : 0 < navStylesCount head) : addStyles head = head := by
  have hne : head.filter (fun e => e.elemId == "nav-styles") ≠ [] := by
    intro hnil
    rw [navStylesCount, hnil] at h
    exact Nat.lt_irrefl 0 h
  obtain ⟨x, hx⟩ := List.exists_mem_of_ne_nil _ hne
  obtain ⟨hmem, hpx⟩ := List.mem_filter.mp hx
  have hany : head.any (fun e => e.elemId == "nav-styles") = true :=
    List.any_eq_true.mpr ⟨x, hmem, hpx⟩
  simp [addStyles, hany]

/-- Claim C7: the style-install step is idempotent: starting from a head
without the marker element, any number n ≥ 1 of invocations of
`addStyles` leaves exactly one element with id `nav-styles`, and every
invocation after the first inserts nothing. -/
theorem addStyles_idempotent (head : List HeadElem) (n : Nat) (hn : 1 ≤ n)
    (h0 : navStylesCount head = 0) :
    navStylesCount (addStyles^[n] head) = 1
    ∧ addStyles^[n] head = addStyles head := by
  have hany := navStyles_absent_of_count_zero head h0
  have h1 : navStylesCount (addStyles head) = 1 := by
    rw [navStylesCount, addStyles, hany]
    simp only [Bool.false_eq_true, if_false, List.filter_append, List.length_append]
    rw [navStylesCount] at h0
    simp [h0]
  have hfix : addStyles (addStyles head) = addStyles head :=
    addStyles_of_count_pos _ (by rw [h1]; exact Nat.zero_lt_one)
  obtain ⟨m, rfl⟩ : ∃ m, n = m + 1 :=
    ⟨n - 1, (Nat.succ_pred_eq_of_pos hn).symm⟩
  rw [Function.iterate_succ_apply, Function.iterate_fixed hfix]
  exact ⟨h1, rfl⟩

/-- Claim C7 witness: two invocations on an empty head leave exactly one
marker element. -/
theorem addStyles_idempotent_witness :
    navStylesCount (addStyles^[2] ([] : List HeadElem)) = 1
    ∧ addStyles^[2] ([] : List HeadElem) = addStyles [] :=
  addStyles_idempotent [] 2 (by decide) (by decide)

set_option maxRecDepth 400000 in
/-- Claim C8: on the pathname `/gpt/gpt-index.html` the section is
`gpt`, the base path is `../`, and the rendered navbar markup carries
the GPT item with the `active` class next to the special class, the
`gpt-icon` span and the `gpt-text` span. -/
theorem gpt_end_to_end :
    getCurrentPage "/gpt/gpt-index.html" = "gpt"
    ∧ getBasePath "/gpt/gpt-index.html" = "../"
    ∧ strIncludes (createNavHTML "/gpt/gpt-index.html")
        "class=\"nav-link active gpt-nav-item\"" = true
    ∧ strIncludes (createNavHTML "/gpt/gpt-index.html")
        "<span class=\"gpt-icon\">🤖</span>" = true
    ∧ strIncludes (createNavHTML "/gpt/gpt-index.html")
        "<span class=\"gpt-text\">Open GPT</span>" = true := by
  refine ⟨by decide, by decide, by decide, by decide, by decide⟩

/-- A wipe preserves the snapshot invariant. -/
theorem guardInv_remove {g : GuardState} (h : guardInv g) :
    guardInv (removeHtmlElements g) := by
  unfold removeHtmlElements
  split
  · exact h
  · intro _
    simp

/-- A restoration preserves the snapshot invariant. -/
theorem guardInv_restore {g : GuardState} (h : guardInv g) :
    guardInv (restoreOriginalContent g) := by
  unfold restoreOriginalContent
  split
  · exact h
  · intro hp
    exact absurd hp (by simp)

/-- Every reachable detector state satisfies the snapshot invariant. -/
theorem reach_guardInv {s : DetState} (h : Reach s) : guardInv s.guard := by
  induction h with
  | init d armed =>
    intro hp
    exact absurd hp (by simp)
  | poll ow iw oh ih cc hs ihg =>
    simp only [pollStep]
    split
    · split
      · exact ihg
      · exact guardInv_remove ihg
    · split
      · exact guardInv_restore ihg
      · exact ihg
  | trigger hs ihg =>
    exact guardInv_remove ihg

/-- Claim C4: at every reachable state of the aggressive Client Guard,
`isProtected = true` implies the snapshot `originalContent` is non-null;
and when a restoration fires (the state is protected and the snapshot is
truthy, the firing condition of `restoreOriginalContent`), the resulting
state has `isProtected = false` and the snapshot is logically
invalidated: a second restoration is a no-op and the next wipe
overwrites the stored value with the current markup. -/
theorem protection_state_invariant (s : DetState) (h : Reach s) :
    (s.guard.isProtected = true → s.guard.originalContent ≠ none)
    ∧ (s.guard.isProtected = true → jsTruthy s.guard.originalContent = true →
        (restoreOriginalContent s.guard).isProtected = false
        ∧ restoreOriginalContent (restoreOriginalContent s.guard)
            = restoreOriginalContent s.guard
        ∧ (removeHtmlElements (restoreOriginalContent s.guard)).originalContent
            = some (restoreOriginalContent s.guard).doc) := by
  refine ⟨reach_guardInv h, fun hp htr => ?_⟩
  have hr : restoreOriginalContent s.guard =
      { doc := s.guard.originalContent.getD "",
        originalContent := s.guard.originalContent,
        isProtected := false,
        listenersArmed := true } := by
    rw [restoreOriginalContent, hp, htr]
    simp
  rw [hr]
  refine ⟨rfl, ?_, ?_⟩
  · rw [restoreOriginalContent]
    simp
  · rw [removeHtmlElements]
    simp

/-- Claim C4 witness: the invariant and the restoration clearing at a
concrete reachable state, reached by one wipe-triggering poll from an
initial state. -/
theorem protection_state_invariant_witness :
    ((pollStep 1000 100 1000 100 false
        { devOpen := false,
          guard := { doc := "page", originalContent := none,
                     isProtected := false, listenersArmed := true } }).guard.isProtected = true →
      (pollStep 1000 100 1000 100 false
        { devOpen := false,
          guard := { doc := "page", originalContent := none,
                     isProtected := false, listenersArmed := true } }).guard.originalContent ≠ none)
    ∧ ((pollStep 1000 100 1000 100 false
        { devOpen := false,
          guard := { doc := "page", originalContent := none,
                     isProtected := false, listenersArmed := true } }).guard.isProtected = true →
       jsTruthy (pollStep 1000 100 1000 100 false
        { devOpen := false,
          guard := { doc := "page", originalContent := none,
                     isProtected := false, listenersArmed := true } }).guard.originalContent = true →
        (restoreOriginalContent (pollStep 1000 100 1000 100 false
          { devOpen := false,
            guard := { doc := "page", originalContent := none,
                       isProtected := false, listenersArmed := true } }).guard).isProtected = false
        ∧ restoreOriginalContent (restoreOriginalContent (pollStep 1000 100 1000 100 false
            { devOpen := false,
              guard := { doc := "page", originalContent := none,
                         isProtected := false, listenersArmed := true } }).guard)
            = restoreOriginalContent (pollStep 1000 100 1000 100 false
              { devOpen := false,
                guard := { doc := "page", originalContent := none,
                           isProtected := false, listenersArmed := true } }).guard
        ∧ (removeHtmlElements (restoreOriginalContent (pollStep 1000 100 1000 100 false
            { devOpen := false,
              guard := { doc := "page", originalContent := none,
                         isProtected := false, listenersArmed := true } }).guard)).originalContent
            = some (restoreOriginalContent (pollStep 1000 100 1000 100 false
              { devOpen := false,
                guard := { doc := "page", originalContent := none,
                           isProtected := false, listenersArmed := true } }).guard).doc) :=
  protection_state_invariant
    (pollStep 1000 100 1000 100 false
      { devOpen := false,
        guard := { doc := "page", originalContent := none,
                   isProtected := false, listenersArmed := true } })
    (Reach.poll 1000 100 1000 100 false (Reach.init "page" true))

/-- Claim C3 counterexample: starting from an unprotected state whose
markup is the empty string, a wipe-triggering poll followed by a
closed-heuristic poll does not restore the pre-wipe markup: the restore
guard treats the empty-string snapshot as absent (JS falsiness), so the
document keeps the protection screen and stays protected. -/
theorem wipe_restore_empty_doc_fails :
    (pollStep 0 0 0 0 false
      (pollStep 1000 100 1000 100 false
        { devOpen := false,
          guard := { doc := "", originalContent := none,
                     isProtected := false, listenersArmed := true } })).guard.doc ≠ ""
    ∧ (pollStep 0 0 0 0 false
        (pollStep 1000 100 1000 100 false
          { devOpen := false,
            guard := { doc := "", originalContent := none,
                       isProtected := false, listenersArmed := true } })).guard.isProtected
        = true := by
  decide

/-- Claim C3 as amended: from a guarded state with non-empty markup, a
wipe-triggering poll followed by a closed-heuristic poll (the 500 ms
settle delay folded into the second transition) puts the snapshotted
markup back, leaves the guard unprotected, and re-arms the
interceptors. -/
theorem wipe_restore_roundtrip (s : DetState)
    (ow iw oh ih ow2 iw2 oh2 ih2 : Int) (cc cc2 : Bool)
    (hprot : s.guard.isProtected = false) (hdev : s.devOpen = false)
    (hdoc : s.guard.doc ≠ "")
    (hopen : devtoolsHeuristic ow iw oh ih cc = true)
    (hclosed : devtoolsHeuristic ow2 iw2 oh2 ih2 cc2 = false) :
    (pollStep ow iw oh ih cc s).guard.doc = protectionScreenHTML
    ∧ (pollStep ow2 iw2 oh2 ih2 cc2 (pollStep ow iw oh ih cc s)).guard.doc
        = s.guard.doc
    ∧ (pollStep ow2 iw2 oh2 ih2 cc2 (pollStep ow iw oh ih cc s)).guard.isProtected
        = false
    ∧ (pollStep ow2 iw2 oh2 ih2 cc2 (pollStep ow iw oh ih cc s)).guard.listenersArmed
        = true := by
  have hwipe : removeHtmlElements s.guard =
      { doc := protectionScreenHTML, originalContent := some s.guard.doc,
        isProtected := true, listenersArmed := s.guard.listenersArmed } := by
    rw [removeHtmlElements, hprot]
    simp
  have h1 : pollStep ow iw oh ih cc s =
      { devOpen := true, guard := removeHtmlElements s.guard } := by
    rw [pollStep, hopen, hdev]
    simp
  have hjs : jsTruthy (some s.guard.doc) = true := by
    simp [jsTruthy, hdoc]
  have h2 : pollStep ow2 iw2 oh2 ih2 cc2 (pollStep ow iw oh ih cc s) =
      { devOpen := false, guard := restoreOriginalContent (removeHtmlElements s.guard) } := by
    rw [h1, pollStep, hclosed]
    simp
  have h3 : restoreOriginalContent (removeHtmlElements s.guard) =
      { doc := s.guard.doc, originalContent := some s.guard.doc,
        isProtected := false, listenersArmed := true } := by
    rw [hwipe, restoreOriginalContent]
    simp [hjs]
  refine ⟨by rw [h1, hwipe], by rw [h2, h3], by rw [h2, h3], by rw [h2, h3]⟩

/-- Claim C3 witness: the round-trip on a concrete guarded state with
markup `"page"`, wiped by a 900-pixel width delta and restored once the
deltas are zero. -/
theorem wipe_restore_roundtrip_witness :
    (pollStep 1000 100 1000 100 false
      { devOpen := false,
        guard := { doc := "page", originalContent := none,
                   isProtected := false, listenersArmed := true } }).guard.doc
      = protectionScreenHTML
    ∧ (pollStep 0 0 0 0 false (pollStep 1000 100 1000 100 false
        { devOpen := false,
          guard := { doc := "page", originalContent := none,
                     isProtected := false, listenersArmed := true } })).guard.doc = "page"
    ∧ (pollStep 0 0 0 0 false (pollStep 1000 100 1000 100 false
        { devOpen := false,
          guard := { doc := "page", originalContent := none,
                     isProtected := false, listenersArmed := true } })).guard.isProtected = false
    ∧ (pollStep 0 0 0 0 false (pollStep 1000 100 1000 100 false
        { devOpen := false,
          guard := { doc := "page", originalContent := none,
                     isProtected := false, listenersArmed := true } })).guard.listenersArmed = true :=
  wipe_restore_roundtrip
    { devOpen := false,
      guard := { doc := "page", originalContent := none,
                 isProtected := false, listenersArmed := true } }
    1000 100 1000 100 0 0 0 0 false false
    rfl rfl (by decide) (by decide) (by decide)

/-- Claim C9: once protected, `removeHtmlElements` returns immediately,
so iterating it any number n ≥ 1 of times equals the single first wipe;
from an unprotected state the snapshot after any such sequence is the
markup captured at the first trigger. -/
theorem removeHtmlElements_idempotent (g : GuardState) (n : Nat) (hn : 1 ≤ n) :
    (g.isProtected = true → removeHtmlElements g = g)
    ∧ removeHtmlElements^[n] g = removeHtmlElements g
    ∧ (g.isProtected = false →
        (removeHtmlElements^[n] g).originalContent = some g.doc) := by
  have hfirst : ∀ g' : GuardState, g'.isProtected = true →
      removeHtmlElements g' = g' := by
    intro g' h
    rw [removeHtmlElements, h]
    simp
  have hprot : (removeHtmlElements g).isProtected = true := by
    rw [removeHtmlElements]
    split
    · assumption
    · rfl
  have hfix : removeHtmlElements (removeHtmlElements g) = removeHtmlElements g :=
    hfirst _ hprot
  obtain ⟨m, rfl⟩ : ∃ m, n = m + 1 :=
    ⟨n - 1, (Nat.succ_pred_eq_of_pos hn).symm⟩
  rw [Function.iterate_succ_apply, Function.iterate_fixed hfix]
  refine ⟨hfirst g, rfl, fun hp => ?_⟩
  rw [removeHtmlElements, hp]
  simp

/-- Claim C9 witness: three consecutive wipe triggers on a concrete
unprotected state behave as the first one alone. -/
theorem removeHtmlElements_idempotent_witness :
    (({ doc := "page", originalContent := none, isProtected := false,
        listenersArmed := true } : GuardState).isProtected = true →
      removeHtmlElements
        { doc := "page", originalContent := none, isProtected := false,
          listenersArmed := true }
        = { doc := "page", originalContent := none, isProtected := false,
            listenersArmed := true })
    ∧ removeHtmlElements^[3]
        ({ doc := "page", originalContent := none, isProtected := false,
           listenersArmed := true } : GuardState)
        = removeHtmlElements
            { doc := "page", originalContent := none, isProtected := false,
              listenersArmed := true }
    ∧ (({ doc := "page", originalContent := none, isProtected := false,
          listenersArmed := true } : GuardState).isProtected = false →
        (removeHtmlElements^[3]
          ({ doc := "page", originalContent := none, isProtected := false,
             listenersArmed := true } : GuardState)).originalContent = some "page") :=
  removeHtmlElements_idempotent
    { doc := "page", originalContent := none, isProtected := false,
      listenersArmed := true }
    3 (by decide)

/-- Claim C5: the lighter heuristic fires exactly when the width delta
exceeds 220 px or the height delta exceeds 300 px (the 200 px thresholds
plus the 20 / 100 px chrome allowances): zero deltas cause no transition
to the warning state, and a width delta of 300 forces one. -/
theorem light_heuristic_thresholds (ow iw oh ih : Int) (s : LightState) :
    ((ow - iw = 0 ∧ oh - ih = 0) → lightCheckDevTools ow iw oh ih s = s)
    ∧ (ow - iw = 300 → lightCheckDevTools ow iw oh ih s = showWarning s)
    ∧ (lightSuspicious ow iw oh ih = true ↔ (ow - iw > 220 ∨ oh - ih > 300)) := by
  have hiff : lightSuspicious ow iw oh ih = true ↔ (ow - iw > 220 ∨ oh - ih > 300) := by
    rw [lightSuspicious]
    simp [normalChromeWidth, lightWidthThreshold, normalChromeHeight, lightHeightThreshold]
  refine ⟨?_, ?_, hiff⟩
  · rintro ⟨hw, hh⟩
    have hfire : lightSuspicious ow iw oh ih = false :=
      Bool.eq_false_iff.mpr (fun ht => by
        rcases hiff.mp ht with hgt | hgt
        · rw [hw] at hgt
          exact absurd hgt (by norm_num)
        · rw [hh] at hgt
          exact absurd hgt (by norm_num))
    rw [lightCheckDevTools, hfire]
    simp
  · intro hw
    have hfire : lightSuspicious ow iw oh ih = true :=
      hiff.mpr (Or.inl (by rw [hw]; norm_num))
    rw [lightCheckDevTools, hfire]
    simp

/-- Claim C5 witness: a 300-pixel width delta forces the transition to
the warning state on a concrete body. -/
theorem light_heuristic_thresholds_witness :
    lightCheckDevTools 400 100 600 600 { body := "resume" }
      = showWarning { body := "resume" } :=
  (light_heuristic_thresholds 400 100 600 600 { body := "resume" }).2.1 (by norm_num)

/-- One firing of the lighter poll preserves the warning body: the
script has no restore branch. -/
theorem lightCheckDevTools_preserves_warning
    (ow iw oh ih : Int) (s : LightState) (h : s.body = warningHTML) :
    (lightCheckDevTools ow iw oh ih s).body = warningHTML := by
  rw [lightCheckDevTools]
  split
  · rfl
  · exact h

/-- Claim C10: the lighter guard's wipe keeps no snapshot — the result
of `showWarning` is independent of the prior state — and the polling
step relation never leaves the warning state: once the warning body is
shown, every further run of the polling loop keeps it for the rest of
the session. -/
theorem light_guard_never_restores :
    (∀ s t : LightState, showWarning s = showWarning t)
    ∧ (∀ ow iw oh ih : Int, ∀ s : LightState, s.body = warningHTML →
        (lightCheckDevTools ow iw oh ih s).body = warningHTML)
    ∧ (∀ dims : List (Int × Int × Int × Int), ∀ s : LightState,
        s.body = warningHTML → (lightRun dims s).body = warningHTML) := by
  refine ⟨fun s t => rfl, fun ow iw oh ih s h =>
    lightCheckDevTools_preserves_warning ow iw oh ih s h, fun dims => ?_⟩
  induction dims with
  | nil => exact fun s h => h
  | cons d rest ihr =>
    intro s h
    exact ihr _ (lightCheckDevTools_preserves_warning d.1 d.2.1 d.2.2.1 d.2.2.2 s h)

/-- Claim C10 witness: a concrete polling run over three dimension
samples, one of them non-suspicious, keeps the warning body. -/
theorem light_guard_never_restores_witness :
    (lightRun [(400, 100, 600, 600), (800, 800, 600, 600), (0, 0, 0, 0)]
      { body := warningHTML }).body = warningHTML :=
  light_guard_never_restores.2.2
    [(400, 100, 600, 600), (800, 800, 600, 600), (0, 0, 0, 0)]
    { body := warningHTML } rfl

/-- Claim C2 counterexample: `downloadResume` overrides the `fontSize`
of a `.company` element during export (to `1.2em`), and neither the
success-branch nor the failure-branch restoration returns it to its
pre-export value — the property keeps the export override. -/
theorem export_restore_drops_fontSize :
    (exportOverride companyElem).style.fontSize ≠ companyElem.style.fontSize
    ∧ (successRestoreElem (snapshotOf companyElem)
        (exportOverride companyElem)).style.fontSize ≠ companyElem.style.fontSize
    ∧ (errorRestoreElem (snapshotOf companyElem)
        (exportOverride companyElem)).style.fontSize ≠ companyElem.style.fontSize := by
  decide

/-- Claim C2 as amended: after either branch of the PDF pipeline, the
four snapshot-recorded properties of every gradient-text element are
restored to their exact pre-export values and the container's three
recorded properties round-trip exactly; `color`, `fontWeight` and
`textShadow` are reset to the empty string rather than their pre-export
values; `fontSize` and `lineHeight` keep whatever the export override
set; and the success and failure branches perform identical
restoration. -/
theorem export_restore_partial (e : GradElem) :
    (successRestoreElem (snapshotOf e) (exportOverride e)).style.background
        = e.style.background
    ∧ (successRestoreElem (snapshotOf e) (exportOverride e)).style.webkitBackgroundClip
        = e.style.webkitBackgroundClip
    ∧ (successRestoreElem (snapshotOf e) (exportOverride e)).style.webkitTextFillColor
        = e.style.webkitTextFillColor
    ∧ (successRestoreElem (snapshotOf e) (exportOverride e)).style.backgroundClip
        = e.style.backgroundClip
    ∧ (successRestoreElem (snapshotOf e) (exportOverride e)).style.color = ""
    ∧ (successRestoreElem (snapshotOf e) (exportOverride e)).style.fontWeight = ""
    ∧ (successRestoreElem (snapshotOf e) (exportOverride e)).style.textShadow = ""
    ∧ (successRestoreElem (snapshotOf e) (exportOverride e)).style.fontSize
        = (exportOverride e).style.fontSize
    ∧ (successRestoreElem (snapshotOf e) (exportOverride e)).style.lineHeight
        = (exportOverride e).style.lineHeight
    ∧ (∀ (snap : StyleSnapshot) (f : GradElem),
        successRestoreElem snap f = errorRestoreElem snap f)
    ∧ (∀ c : ContainerStyle, containerRestore c (containerOverride c) = c) :=
  ⟨rfl, rfl, rfl, rfl, rfl, rfl, rfl, rfl, rfl, fun _ _ => rfl, fun _ => rfl⟩
